import Mathlib

/-!
Verification of `kale/embed/video_feature_extractor.py` (pykale).

The module has two entry points, `get_extractor_video` and
`get_extractor_feat`, which dispatch over string configuration values to
select a video feature-extraction backbone and compute two output feature
dimensions.  We embed both functions shallowly: Python exceptions become an
`Except PyErr` result, Python dictionaries become association lists, the
true division `/` on dimensions becomes division in `ℚ`, and the `int(...)`
coercion becomes truncation toward zero (`pyInt`).

Collaborator functions from other files of the repository
(`get_image_modality`, the backbone constructors `i3d_joint`,
`se_i3d_joint`, `r3d`, `se_r3d`, `r2plus1d`, `se_r2plus1d`, `mc3`,
`se_mc3`, `ta3n_joint`) are not part of the excerpt; they are modelled
from the specification, which describes them as pure constructors that
return a mapping keyed by stream name (or a single joint network), with a
null placeholder for an inactive stream.
-/

/-- Python exceptions that the module can raise: `ValueError` for the two
explicit validations, `KeyError` for a missing dictionary key, and
`NameError` for a reference to an unbound local variable. -/
inductive PyErr where
  | valueError (msg : String)
  | keyError (key : String)
  | nameError (name : String)
deriving Repr, DecidableEq

/-- A sub-network produced by one of the backbone constructors, tagged by
which constructor built it and with which configuration. -/
inductive Backbone where
  | i3d (pt : String)
  | seI3d (pt : String) (att : String)
  | r3d
  | seR3d (att : String)
  | r2plus1d
  | seR2plus1d (att : String)
  | mc3
  | seMc3 (att : String)
deriving Repr, DecidableEq

/-- A feature network keyed by stream name ("rgb", "flow", "audio"); a
`none` value is the null placeholder for an inactive stream. -/
abbrev StreamDict := List (String × Option Backbone)

/-- The joint temporal-aggregation (TA3N) network.  Modelled from the spec:
`ta3n_joint` (`kale/embed/video_ta3n.py`) is not part of the excerpt; per
§4.1/§4.2 and §6 it constructs one joint network over the active streams
from its arguments, so we model it as a value capturing those arguments.
The image-input call site passes pretrained-weight identifiers, the
feature-input call site passes stream-activity flags. -/
inductive Ta3nNet where
  | image (rgb_pt flow_pt audio_pt : Option String) (input_size : Int)
      (num_classes : Int)
  | feature (rgb flow audio : Bool) (input_size output_size : Int)
      (frame_aggregation : String) (segments : Int)
      (dict_n_class : List (String × Int))
deriving Repr, DecidableEq

/-- Return artifact of the image-input selector: either a per-stream
mapping or (in the early-return branch) one joint TA3N network. -/
inductive VideoNet where
  | dict (net : StreamDict)
  | joint (net : Ta3nNet)
deriving Repr, DecidableEq

/-- Python `d[k]` on a dictionary: the value when the key is present,
`KeyError` otherwise. -/
def dictGet (d : List (String × Int)) (k : String) : Except PyErr Int :=
  match d.lookup k with
  | some v => Except.ok v
  | none => Except.error (PyErr.keyError k)

/-- Python `d.update({k: v})`: overwrite the entry when the key is
present, append it otherwise. -/
def dictSet (d : StreamDict) (k : String) (v : Option Backbone) : StreamDict :=
  if d.any (fun p => p.1 == k) then
    d.map (fun p => if p.1 == k then (p.1, v) else p)
  else d ++ [(k, v)]

/-- Tests whether `needle` starts the list `hay`. -/
def listStartsWith : List Char → List Char → Bool
  | [], _ => true
  | _ :: _, [] => false
  | a :: as, b :: bs => a == b && listStartsWith as bs

/-- Tests whether `needle` occurs as a contiguous sublist of `hay`; with `String.data`
this is Python's substring test `needle in hay`. -/
def listContains (needle : List Char) : List Char → Bool
  | [] => needle.isEmpty
  | c :: t => listStartsWith needle (c :: t) || listContains needle t

/-- Python's `needle in hay` on strings. -/
def pySubstr (needle hay : String) : Bool :=
  listContains needle.data hay.data

/-- Python `int(q)` on a (finite) numeric value: truncation toward zero.
A rational's numerator and denominator are in lowest terms with positive
denominator, so t-division of numerator by denominator truncates the value
toward zero exactly as Python's `int` does. -/
def pyInt (q : ℚ) : Int :=
  Int.tdiv q.num (q.den : Int)

/-- Modelled from the spec: `get_image_modality`
(`kale/loaddata/video_access.py`) is not part of the excerpt.  Per §3 and
§6 it decodes a modality string into three booleans (use RGB, use optical
flow, use audio); "joint" means RGB and flow, and the feature path also
admits audio combinations, with "all" meaning all three streams. -/
def get_image_modality (image_modality : String) : Bool × Bool × Bool :=
  if image_modality == "all" then (true, true, true)
  else if image_modality == "joint" then (true, true, false)
  else (image_modality == "rgb", image_modality == "flow",
        image_modality == "audio")

/-- Modelled from the spec: `i3d_joint` (`kale/embed/video_i3d.py`) is not
part of the excerpt.  Per §6 it accepts one pretrained-weight identifier
per stream and returns a mapping keyed by stream name, with a null
placeholder for a stream that has no identifier (§3, §8). -/
def i3d_joint (rgb_pt flow_pt : Option String) (_num_classes : Int) :
    StreamDict :=
  [("rgb", rgb_pt.map Backbone.i3d), ("flow", flow_pt.map Backbone.i3d)]

/-- Modelled from the spec: the attention variant of `i3d_joint`
(`kale/embed/video_se_i3d.py`), same shape with the attention name
recorded. -/
def se_i3d_joint (rgb_pt flow_pt : Option String) (attention : String)
    (_num_classes : Int) : StreamDict :=
  [("rgb", rgb_pt.map (fun pt => Backbone.seI3d pt attention)),
   ("flow", flow_pt.map (fun pt => Backbone.seI3d pt attention))]

/-- Modelled from the spec: `r3d` (`kale/embed/video_res3d.py`) accepts
stream-activity flags and returns a mapping keyed by stream name with null
placeholders for inactive streams (§6). -/
def r3d (rgb flow : Bool) : StreamDict :=
  [("rgb", if rgb then some Backbone.r3d else none),
   ("flow", if flow then some Backbone.r3d else none)]

/-- Modelled from the spec: attention variant of `r3d`
(`kale/embed/video_se_res3d.py`). -/
def se_r3d (rgb flow : Bool) (attention : String) : StreamDict :=
  [("rgb", if rgb then some (Backbone.seR3d attention) else none),
   ("flow", if flow then some (Backbone.seR3d attention) else none)]

/-- Modelled from the spec: `r2plus1d` (`kale/embed/video_res3d.py`). -/
def r2plus1d (rgb flow : Bool) : StreamDict :=
  [("rgb", if rgb then some Backbone.r2plus1d else none),
   ("flow", if flow then some Backbone.r2plus1d else none)]

/-- Modelled from the spec: attention variant of `r2plus1d`
(`kale/embed/video_se_res3d.py`). -/
def se_r2plus1d (rgb flow : Bool) (attention : String) : StreamDict :=
  [("rgb", if rgb then some (Backbone.seR2plus1d attention) else none),
   ("flow", if flow then some (Backbone.seR2plus1d attention) else none)]

/-- Modelled from the spec: `mc3` (`kale/embed/video_res3d.py`). -/
def mc3 (rgb flow : Bool) : StreamDict :=
  [("rgb", if rgb then some Backbone.mc3 else none),
   ("flow", if flow then some Backbone.mc3 else none)]

/-- Modelled from the spec: attention variant of `mc3`
(`kale/embed/video_se_res3d.py`). -/
def se_mc3 (rgb flow : Bool) (attention : String) : StreamDict :=
  [("rgb", if rgb then some (Backbone.seMc3 attention) else none),
   ("flow", if flow then some (Backbone.seMc3 attention) else none)]

/-- The two dimension outputs of a selector result, discarding the network
component (claims about dimensions only). -/
def resultDims {α : Type} (r : Except PyErr (α × Int × Int)) :
    Except PyErr (Int × Int) :=
  r.map (fun t => (t.2.1, t.2.2))

/-- Whether a selector call returned a result at all (as opposed to
raising). -/
def resultIsOk {α : Type} : Except PyErr α → Bool
  | Except.ok _ => true
  | Except.error _ => false

/-- The seven recognized attention names (source line 42). -/
def attention_list : List String :=
  ["SELayerC", "SELayerT", "SELayerCoC", "SELayerMC", "SELayerCT",
   "SELayerTC", "SELayerMAC"]

/-- The recognized model names for the image-input path (source line 43). -/
def model_list : List String :=
  ["I3D", "R3D_18", "MC3_18", "R2PLUS1D_18"]

/-- Source lines 45-50: the attention string yields `att = true` when it is
one of the seven recognized names, `att = false` when it is the literal
"None", and otherwise raises `ValueError` naming the offending value. -/
def checkAttention (attention : String) : Except PyErr Bool :=
  if attention ∈ attention_list then Except.ok true
  else if attention == "None" then Except.ok false
  else Except.error
    (PyErr.valueError ("Wrong MODEL.ATTENTION. Current: " ++ attention))

/-- Source lines 56-67: dimensions of the (unreachable) temporal-
aggregation branch of `get_extractor_video`: the class dimension
accumulates `domain_feature_dim = 1024` once per active stream. -/
def ta3n_video_dims (rgb flow audio : Bool) : ℚ × ℚ :=
  let domain_feature_dim : ℚ := 1024
  let class_feature_dim : ℚ := 0
  let class_feature_dim :=
    if rgb then class_feature_dim + domain_feature_dim else class_feature_dim
  let class_feature_dim :=
    if flow then class_feature_dim + domain_feature_dim else class_feature_dim
  let class_feature_dim :=
    if audio then class_feature_dim + domain_feature_dim else class_feature_dim
  (class_feature_dim, domain_feature_dim)

/-- Source lines 80-85: I3D dimensions; for joint input the domain
dimension is half of the class dimension by true division. -/
def i3d_dims (rgb flow : Bool) : ℚ × ℚ :=
  if rgb && flow then
    let class_feature_dim : ℚ := 2048
    (class_feature_dim, class_feature_dim / 2)
  else
    let class_feature_dim : ℚ := 1024
    (class_feature_dim, class_feature_dim)

/-- Source lines 104-109: R3D_18 / R2PLUS1D_18 / MC3_18 dimensions. -/
def res3d_dims (rgb flow : Bool) : ℚ × ℚ :=
  if rgb && flow then
    let class_feature_dim : ℚ := 1024
    (class_feature_dim, class_feature_dim / 2)
  else
    let class_feature_dim : ℚ := 512
    (class_feature_dim, class_feature_dim)

/-- Source lines 52-135 of `get_extractor_video`, after the class-count
lookup and attention validation: model-name validation, then the
(unreachable) TA3N early return, then the per-family construction, the
`feature_network.update({"audio": None})`, and the `int(...)` coercions of
both dimensions.  The impossible fall-through of the Python `if`/`elif`
chain (a model name that passed validation but matches no family) would
reference the unbound `feature_network` and is a `NameError`. -/
def videoCore (model_name : String) (rgb flow audio : Bool)
    (attention : String) (att : Bool) (num_classes : Int) :
    Except PyErr (VideoNet × Int × Int) :=
  if model_name ∉ model_list then
    Except.error
      (PyErr.valueError ("Wrong MODEL.METHOD. Current:" ++ model_name))
  else if pySubstr "TA3N" model_name then
    let rgb_pretrained : Option String :=
      if rgb then some "rgb_ta3n" else none
    let flow_pretrained : Option String :=
      if flow then some "flow_ta3n" else none
    let audio_pretrained : Option String :=
      if audio then some "audio_ta3n" else none
    let dims := ta3n_video_dims rgb flow audio
    Except.ok
      (VideoNet.joint
        (Ta3nNet.image rgb_pretrained flow_pretrained audio_pretrained
          1024 num_classes),
       pyInt dims.1, pyInt dims.2)
  else if model_name == "I3D" then
    let rgb_pretrained_model : Option String :=
      if rgb then some "rgb_imagenet" else none
    let flow_pretrained_model : Option String :=
      if flow then some "flow_imagenet" else none
    let dims := i3d_dims rgb flow
    let feature_network :=
      if !att then i3d_joint rgb_pretrained_model flow_pretrained_model
        num_classes
      else se_i3d_joint rgb_pretrained_model flow_pretrained_model
        attention num_classes
    Except.ok
      (VideoNet.dict (dictSet feature_network "audio" none),
       pyInt dims.1, pyInt dims.2)
  else if model_name ∈ ["R3D_18", "R2PLUS1D_18", "MC3_18"] then
    let dims := res3d_dims rgb flow
    let fnet : Except PyErr StreamDict :=
      if model_name == "R3D_18" then
        Except.ok (if !att then r3d rgb flow else se_r3d rgb flow attention)
      else if model_name == "R2PLUS1D_18" then
        Except.ok
          (if !att then r2plus1d rgb flow else se_r2plus1d rgb flow attention)
      else if model_name == "MC3_18" then
        Except.ok (if !att then mc3 rgb flow else se_mc3 rgb flow attention)
      else Except.error (PyErr.nameError "feature_network")
    fnet.map (fun fn =>
      (VideoNet.dict (dictSet fn "audio" none), pyInt dims.1, pyInt dims.2))
  else Except.error (PyErr.nameError "feature_network")

/-- Embedding of `get_extractor_video` (source lines 19-135): decode the
modality, read `dict_num_classes["verb"]`, validate the attention string,
then dispatch on the model name as in `videoCore`. -/
def get_extractor_video (model_name image_modality attention : String)
    (dict_num_classes : List (String × Int)) :
    Except PyErr (VideoNet × Int × Int) :=
  let m := get_image_modality image_modality
  match dictGet dict_num_classes "verb" with
  | Except.error e => Except.error e
  | Except.ok num_classes =>
    match checkAttention attention with
    | Except.error e => Except.error e
    | Except.ok att =>
      videoCore model_name m.1 m.2.1 m.2.2 attention att num_classes

/-- Embedding of `get_extractor_feat` (source lines 138-172): decode the
modality; only the model name "TA3N" constructs a network; then
`domain_feature_dim = int(output_size)`, the multi-branch class-dimension
computation, its unconditional overwrite by the domain dimension (source
line 169), and the return, which references the possibly-unbound
`feature_network` (a `NameError` for every other model name). -/
def get_extractor_feat (model_name image_modality : String)
    (dict_num_classes : List (String × Int)) (frame_aggregation : String)
    (segments : Int) (input_size output_size : Int) :
    Except PyErr (Ta3nNet × Int × Int) :=
  match get_image_modality image_modality with
  | (rgb, flow, audio) =>
    let feature_network : Option Ta3nNet :=
      if model_name == "TA3N" then
        some (Ta3nNet.feature rgb flow audio input_size output_size
          frame_aggregation segments dict_num_classes)
      else none
    let domain_feature_dim : Int := output_size
    let class_feature_dim : Int :=
      if rgb then
        if flow then
          if audio then domain_feature_dim * 3 else domain_feature_dim * 2
        else
          if audio then domain_feature_dim * 2 else domain_feature_dim
      else
        if flow then
          if audio then domain_feature_dim * 2 else domain_feature_dim
        else domain_feature_dim
    let class_feature_dim := domain_feature_dim
    match feature_network with
    | some fn => Except.ok (fn, class_feature_dim, domain_feature_dim)
    | none => Except.error (PyErr.nameError "feature_network")

/-! ## Helper lemmas -/

theorem tdiv_one_eq (n : ℤ) : Int.tdiv n 1 = n := by
  cases n <;> simp [Int.tdiv, Nat.div_one, Int.negSucc_eq]

/-- The truncation `pyInt` agrees with the value on rationals that are integers: the
`int(...)` coercion is lossless there. -/
theorem pyInt_eq (q : ℚ) (n : ℤ) (h : q = (n : ℚ)) : pyInt q = n := by
  subst h
  simp [pyInt, Rat.num_intCast, Rat.den_intCast, tdiv_one_eq]

/-- Evaluation of `videoCore` at model name "I3D": the branch of source
lines 73-100 followed by lines 134-135. -/
theorem videoCore_I3D (rgb flow audio : Bool) (attention : String)
    (att : Bool) (n : Int) :
    videoCore "I3D" rgb flow audio attention att n =
      Except.ok
        (VideoNet.dict (dictSet
          (if !att then
            i3d_joint (if rgb then some "rgb_imagenet" else none)
              (if flow then some "flow_imagenet" else none) n
           else
            se_i3d_joint (if rgb then some "rgb_imagenet" else none)
              (if flow then some "flow_imagenet" else none) attention n)
          "audio" none),
         pyInt (i3d_dims rgb flow).1, pyInt (i3d_dims rgb flow).2) := rfl

/-- Evaluation of `videoCore` at model name "R3D_18". -/
theorem videoCore_R3D (rgb flow audio : Bool) (attention : String)
    (att : Bool) (n : Int) :
    videoCore "R3D_18" rgb flow audio attention att n =
      Except.ok
        (VideoNet.dict (dictSet
          (if !att then r3d rgb flow else se_r3d rgb flow attention)
          "audio" none),
         pyInt (res3d_dims rgb flow).1, pyInt (res3d_dims rgb flow).2) := rfl

/-- Evaluation of `videoCore` at model name "R2PLUS1D_18". -/
theorem videoCore_R2P (rgb flow audio : Bool) (attention : String)
    (att : Bool) (n : Int) :
    videoCore "R2PLUS1D_18" rgb flow audio attention att n =
      Except.ok
        (VideoNet.dict (dictSet
          (if !att then r2plus1d rgb flow else se_r2plus1d rgb flow attention)
          "audio" none),
         pyInt (res3d_dims rgb flow).1, pyInt (res3d_dims rgb flow).2) := rfl

/-- Evaluation of `videoCore` at model name "MC3_18". -/
theorem videoCore_MC3 (rgb flow audio : Bool) (attention : String)
    (att : Bool) (n : Int) :
    videoCore "MC3_18" rgb flow audio attention att n =
      Except.ok
        (VideoNet.dict (dictSet
          (if !att then mc3 rgb flow else se_mc3 rgb flow attention)
          "audio" none),
         pyInt (res3d_dims rgb flow).1, pyInt (res3d_dims rgb flow).2) := rfl

/-- When the class-count table has a "verb" entry and the attention string
validates, `get_extractor_video` reduces to `videoCore`. -/
theorem get_video_eq (model modality attention : String)
    (d : List (String × Int)) (n : Int)
    (hv : d.lookup "verb" = some n) (att : Bool)
    (ha : checkAttention attention = Except.ok att) :
    get_extractor_video model modality attention d =
      videoCore model (get_image_modality modality).1
        (get_image_modality modality).2.1 (get_image_modality modality).2.2
        attention att n := by
  simp [get_extractor_video, dictGet, hv, ha]

/-- The `int(...)`-coerced I3D dimensions per active-stream combination. -/
theorem pyInt_i3d_dims (rgb flow : Bool) :
    (pyInt (i3d_dims rgb flow).1, pyInt (i3d_dims rgb flow).2) =
      if rgb && flow then ((2048 : ℤ), (1024 : ℤ))
      else ((1024 : ℤ), (1024 : ℤ)) := by
  cases rgb <;> cases flow <;> norm_num [i3d_dims, pyInt, tdiv_one_eq]

/-- The `int(...)`-coerced R3D/R2+1D/MC3 dimensions per active-stream
combination. -/
theorem pyInt_res3d_dims (rgb flow : Bool) :
    (pyInt (res3d_dims rgb flow).1, pyInt (res3d_dims rgb flow).2) =
      if rgb && flow then ((1024 : ℤ), (512 : ℤ))
      else ((512 : ℤ), (512 : ℤ)) := by
  cases rgb <;> cases flow <;> norm_num [res3d_dims, pyInt, tdiv_one_eq]

/-- Casting the coerced I3D dimensions back to `ℚ` recovers the
pre-coercion values exactly. -/
theorem i3d_dims_cast (rgb flow : Bool) :
    ((pyInt (i3d_dims rgb flow).1 : ℚ), (pyInt (i3d_dims rgb flow).2 : ℚ)) =
      i3d_dims rgb flow := by
  cases rgb <;> cases flow <;> norm_num [i3d_dims, pyInt, tdiv_one_eq]

/-- Casting the coerced R3D/R2+1D/MC3 dimensions back to `ℚ` recovers the
pre-coercion values exactly. -/
theorem res3d_dims_cast (rgb flow : Bool) :
    ((pyInt (res3d_dims rgb flow).1 : ℚ),
     (pyInt (res3d_dims rgb flow).2 : ℚ)) =
      res3d_dims rgb flow := by
  cases rgb <;> cases flow <;> norm_num [res3d_dims, pyInt, tdiv_one_eq]

/-- A recognized attention name validates with `att = true`. -/
theorem checkAttention_mem (attention : String)
    (h : attention ∈ attention_list) :
    checkAttention attention = Except.ok true := by
  simp [checkAttention, h]

/-- An attention string that is neither recognized nor "None" raises the
`ValueError` naming it. -/
theorem checkAttention_bad (attention : String)
    (h1 : attention ∉ attention_list) (h2 : attention ≠ "None") :
    checkAttention attention =
      Except.error
        (PyErr.valueError ("Wrong MODEL.ATTENTION. Current: " ++ attention)) := by
  simp [checkAttention, h1, h2]

/-- A validated attention string yields some boolean `att`. -/
theorem checkAttention_ok (attention : String)
    (h : attention ∈ attention_list ∨ attention = "None") :
    ∃ att, checkAttention attention = Except.ok att := by
  rcases h with h | h
  · exact ⟨true, checkAttention_mem attention h⟩
  · exact ⟨false, by subst h; rfl⟩

/-! ## Claims -/

/-- C1: for the image-input selector with modality "joint", model "I3D",
attention "None", `class_feature_dim = 2048` and `domain_feature_dim =
1024`, and the returned network maps "rgb" and "flow" to non-null entries
(shown explicitly as the constructed I3D sub-networks) and "audio" to the
null placeholder; for a single active stream ("rgb" or "flow") both
dimensions are 1024. -/
theorem claim_C1 (d : List (String × Int)) (n : Int)
    (hv : d.lookup "verb" = some n) :
    get_extractor_video "I3D" "joint" "None" d =
      Except.ok (VideoNet.dict
        [("rgb", some (Backbone.i3d "rgb_imagenet")),
         ("flow", some (Backbone.i3d "flow_imagenet")), ("audio", none)],
        2048, 1024) ∧
    get_extractor_video "I3D" "rgb" "None" d =
      Except.ok (VideoNet.dict
        [("rgb", some (Backbone.i3d "rgb_imagenet")), ("flow", none),
         ("audio", none)],
        1024, 1024) ∧
    get_extractor_video "I3D" "flow" "None" d =
      Except.ok (VideoNet.dict
        [("rgb", none), ("flow", some (Backbone.i3d "flow_imagenet")),
         ("audio", none)],
        1024, 1024) := by
  refine ⟨?_, ?_, ?_⟩
  · rw [get_video_eq "I3D" "joint" "None" d n hv false rfl,
        show get_image_modality "joint" = (true, true, false) from rfl,
        videoCore_I3D]
    have h1 : pyInt (i3d_dims true true).1 = 2048 :=
      congrArg Prod.fst (pyInt_i3d_dims true true)
    have h2 : pyInt (i3d_dims true true).2 = 1024 :=
      congrArg Prod.snd (pyInt_i3d_dims true true)
    rw [h1, h2]
    rfl
  · rw [get_video_eq "I3D" "rgb" "None" d n hv false rfl,
        show get_image_modality "rgb" = (true, false, false) from rfl,
        videoCore_I3D]
    have h1 : pyInt (i3d_dims true false).1 = 1024 :=
      congrArg Prod.fst (pyInt_i3d_dims true false)
    have h2 : pyInt (i3d_dims true false).2 = 1024 :=
      congrArg Prod.snd (pyInt_i3d_dims true false)
    rw [h1, h2]
    rfl
  · rw [get_video_eq "I3D" "flow" "None" d n hv false rfl,
        show get_image_modality "flow" = (false, true, false) from rfl,
        videoCore_I3D]
    have h1 : pyInt (i3d_dims false true).1 = 1024 :=
      congrArg Prod.fst (pyInt_i3d_dims false true)
    have h2 : pyInt (i3d_dims false true).2 = 1024 :=
      congrArg Prod.snd (pyInt_i3d_dims false true)
    rw [h1, h2]
    rfl

/-- Witness for C1 at the concrete class-count table `[("verb", 8)]`. -/
theorem claim_C1_witness :
    get_extractor_video "I3D" "joint" "None" [("verb", 8)] =
      Except.ok (VideoNet.dict
        [("rgb", some (Backbone.i3d "rgb_imagenet")),
         ("flow", some (Backbone.i3d "flow_imagenet")), ("audio", none)],
        2048, 1024) ∧
    get_extractor_video "I3D" "rgb" "None" [("verb", 8)] =
      Except.ok (VideoNet.dict
        [("rgb", some (Backbone.i3d "rgb_imagenet")), ("flow", none),
         ("audio", none)],
        1024, 1024) ∧
    get_extractor_video "I3D" "flow" "None" [("verb", 8)] =
      Except.ok (VideoNet.dict
        [("rgb", none), ("flow", some (Backbone.i3d "flow_imagenet")),
         ("audio", none)],
        1024, 1024) :=
  claim_C1 [("verb", 8)] 8 rfl

/-- C2: for model names "R3D_18", "R2PLUS1D_18", "MC3_18" (any valid
attention and any modality), `class_feature_dim` is 1024 when both rgb and
flow are active and 512 otherwise, and `domain_feature_dim` is half of it
(512) when both are active and equal to it (512) otherwise; in particular
for modality "rgb" and model "R3D_18" both are 512 (see the witness). -/
theorem claim_C2 (model modality attention : String)
    (d : List (String × Int)) (n : Int)
    (hm : model ∈ ["R3D_18", "R2PLUS1D_18", "MC3_18"])
    (ha : attention ∈ attention_list ∨ attention = "None")
    (hv : d.lookup "verb" = some n) :
    resultDims (get_extractor_video model modality attention d) =
      Except.ok
        (if (get_image_modality modality).1 &&
            (get_image_modality modality).2.1
         then ((1024 : ℤ), (512 : ℤ)) else ((512 : ℤ), (512 : ℤ))) := by
  obtain ⟨att, hatt⟩ := checkAttention_ok attention ha
  rw [get_video_eq model modality attention d n hv att hatt]
  simp only [List.mem_cons, List.mem_singleton, List.not_mem_nil,
    or_false] at hm
  rcases hm with h | h | h
  · subst h
    rw [videoCore_R3D]
    simp only [resultDims, Except.map]
    exact congrArg Except.ok (pyInt_res3d_dims _ _)
  · subst h
    rw [videoCore_R2P]
    simp only [resultDims, Except.map]
    exact congrArg Except.ok (pyInt_res3d_dims _ _)
  · subst h
    rw [videoCore_MC3]
    simp only [resultDims, Except.map]
    exact congrArg Except.ok (pyInt_res3d_dims _ _)

/-- Witness for C2 at model "R3D_18", modality "rgb", attention "None":
both dimensions evaluate to 512. -/
theorem claim_C2_witness :
    resultDims (get_extractor_video "R3D_18" "rgb" "None" [("verb", 8)]) =
      Except.ok
        (if (get_image_modality "rgb").1 && (get_image_modality "rgb").2.1
         then ((1024 : ℤ), (512 : ℤ)) else ((512 : ℤ), (512 : ℤ))) :=
  claim_C2 "R3D_18" "rgb" "None" [("verb", 8)] 8 (by simp)
    (Or.inr rfl) rfl

/-- C3 counterexample: a call whose attention string ("InvalidName") and
model name ("NotAModel") are both invalid but whose class-count table
lacks the "verb" key raises the missing-key error, not an
invalid-configuration error carrying the offending value — the claim's
"for every call" fails because the "verb" lookup precedes both
validations. -/
theorem claim_C3_counterexample :
    get_extractor_video "NotAModel" "rgb" "InvalidName" [] =
      Except.error (PyErr.keyError "verb") := rfl

/-- C3 amended: provided the class-count table contains a "verb" entry, an
invalid attention string or an invalid model name makes the selector fail
immediately with the invalid-configuration `ValueError` carrying the
offending value (the attention error when the attention is invalid, the
model error otherwise), and no feature network is returned. -/
theorem claim_C3_amended (model modality attention : String)
    (d : List (String × Int)) (n : Int)
    (hv : d.lookup "verb" = some n)
    (h : (attention ∉ attention_list ∧ attention ≠ "None") ∨
         ((attention ∈ attention_list ∨ attention = "None") ∧
          model ∉ model_list)) :
    get_extractor_video model modality attention d =
      (if attention ∈ attention_list ∨ attention = "None" then
        Except.error
          (PyErr.valueError ("Wrong MODEL.METHOD. Current:" ++ model))
      else
        Except.error
          (PyErr.valueError
            ("Wrong MODEL.ATTENTION. Current: " ++ attention))) := by
  rcases h with ⟨h1, h2⟩ | ⟨hA, hm⟩
  · rw [if_neg (not_or.mpr ⟨h1, h2⟩)]
    simp [get_extractor_video, dictGet, hv,
      checkAttention_bad attention h1 h2]
  · rw [if_pos hA]
    obtain ⟨att, hatt⟩ := checkAttention_ok attention hA
    rw [get_video_eq model modality attention d n hv att hatt]
    simp [videoCore, hm]

/-- Witness for the amended C3 at attention "InvalidName" and model
"NotAModel" with a well-formed class-count table. -/
theorem claim_C3_witness :
    get_extractor_video "NotAModel" "rgb" "InvalidName" [("verb", 8)] =
      (if "InvalidName" ∈ attention_list ∨ "InvalidName" = "None" then
        Except.error
          (PyErr.valueError ("Wrong MODEL.METHOD. Current:" ++ "NotAModel"))
      else
        Except.error
          (PyErr.valueError
            ("Wrong MODEL.ATTENTION. Current: " ++ "InvalidName"))) :=
  claim_C3_amended "NotAModel" "rgb" "InvalidName" [("verb", 8)] 8 rfl
    (Or.inl ⟨by decide, by decide⟩)

/-- C4 counterexample: the model name "TA3N" does not reach the
temporal-aggregation branch; it is rejected by the model-name validation
(source line 52), which precedes the `"TA3N" in model_name` test (source
line 55). -/
theorem claim_C4_counterexample :
    get_extractor_video "TA3N" "rgb" "None" [("verb", 8)] =
      Except.error (PyErr.valueError "Wrong MODEL.METHOD. Current:TA3N") :=
  rfl

/-- C4 amended: no model name reaches the temporal-aggregation branch of
the image-input selector.  The model-name validation precedes the TA3N
test and none of the four recognized names contains "TA3N", so every call
whose model name contains "TA3N" raises (no network is returned): the
branch is dead code. -/
theorem claim_C4_amended (model modality attention : String)
    (d : List (String × Int))
    (h : pySubstr "TA3N" model = true) :
    resultIsOk (get_extractor_video model modality attention d) = false := by
  by_cases hm : model ∈ model_list
  · simp only [model_list, List.mem_cons, List.mem_singleton,
      List.not_mem_nil, or_false] at hm
    rcases hm with h1 | h1 | h1 | h1 <;> subst h1 <;>
      exact absurd h (by decide)
  · unfold get_extractor_video
    cases hd : dictGet d "verb" with
    | error e => simp [resultIsOk]
    | ok n =>
      cases hc : checkAttention attention with
      | error e => simp [resultIsOk]
      | ok att => simp [videoCore, hm, resultIsOk]

/-- Witness for the amended C4: "TA3N" contains "TA3N" and the call
returns no network. -/
theorem claim_C4_witness :
    resultIsOk (get_extractor_video "TA3N" "joint" "None" [("verb", 8)]) =
      false :=
  claim_C4_amended "TA3N" "joint" "None" [("verb", 8)] (by decide)

/-- C9 counterexample: a call whose attention string and model name are
both invalid but whose class-count table lacks the "verb" key raises the
missing-key error, not the invalid-attention error the claim promises for
every such call. -/
theorem claim_C9_counterexample :
    get_extractor_video "BadModel" "flow" "BadAttention" [("noun", 3)] =
      Except.error (PyErr.keyError "verb") := rfl

/-- C9 amended: provided the class-count table contains a "verb" entry,
attention validation precedes model-name validation: when both the
attention string and the model name are invalid, the error raised is the
invalid-attention `ValueError` naming the attention value (hence never the
invalid-model error). -/
theorem claim_C9_amended (model modality attention : String)
    (d : List (String × Int)) (n : Int)
    (hv : d.lookup "verb" = some n)
    (h1 : attention ∉ attention_list) (h2 : attention ≠ "None")
    (_hm : model ∉ model_list) :
    get_extractor_video model modality attention d =
      Except.error
        (PyErr.valueError ("Wrong MODEL.ATTENTION. Current: " ++ attention)) := by
  simp [get_extractor_video, dictGet, hv,
    checkAttention_bad attention h1 h2]

/-- Witness for the amended C9 at a doubly-invalid configuration with a
well-formed class-count table. -/
theorem claim_C9_witness :
    get_extractor_video "BadModel" "flow" "BadAttention" [("verb", 4)] =
      Except.error
        (PyErr.valueError
          ("Wrong MODEL.ATTENTION. Current: " ++ "BadAttention")) :=
  claim_C9_amended "BadModel" "flow" "BadAttention" [("verb", 4)] 4 rfl
    (by decide) (by decide) (by decide)

/-- C10: the image-input selector reads `dict_num_classes["verb"]` before
any validation: whatever the model name, modality and attention string,
a class-count table without a "verb" key raises the missing-key error, and
no invalid-configuration error is raised. -/
theorem claim_C10 (model modality attention : String)
    (d : List (String × Int)) (hv : d.lookup "verb" = none) :
    get_extractor_video model modality attention d =
      Except.error (PyErr.keyError "verb") := by
  simp [get_extractor_video, dictGet, hv]

/-- Witness for C10: an empty class-count table with an otherwise valid
configuration raises the missing-key error. -/
theorem claim_C10_witness :
    get_extractor_video "I3D" "rgb" "None" [] =
      Except.error (PyErr.keyError "verb") :=
  claim_C10 "I3D" "rgb" "None" [] rfl

/-- C5: the feature-input selector with model name "TA3N" returns, for
every modality string and every configuration, a joint network over the
decoded streams together with `class_feature_dim = domain_feature_dim =
output_size` — the multi-branch class-dimension computation is
unconditionally overwritten before use (source line 169). -/
theorem claim_C5 (modality : String) (d : List (String × Int))
    (frame_aggregation : String) (segments input_size output_size : Int) :
    get_extractor_feat "TA3N" modality d frame_aggregation segments
        input_size output_size =
      Except.ok
        (Ta3nNet.feature (get_image_modality modality).1
          (get_image_modality modality).2.1
          (get_image_modality modality).2.2
          input_size output_size frame_aggregation segments d,
         output_size, output_size) := by
  rcases hm : get_image_modality modality with ⟨rgb, fl, au⟩
  simp [get_extractor_feat, hm]

/-- C6: the feature-input selector performs no validation: for every model
name other than "TA3N" it raises no invalid-configuration error; it
silently skips network construction, proceeds through the dimension
computation, and only fails at the final return, where it references the
unbound `feature_network` local (a `NameError`, not a `ValueError`). -/
theorem claim_C6 (model modality : String) (d : List (String × Int))
    (frame_aggregation : String) (segments input_size output_size : Int)
    (h : model ≠ "TA3N") :
    get_extractor_feat model modality d frame_aggregation segments
        input_size output_size =
      Except.error (PyErr.nameError "feature_network") := by
  rcases hm : get_image_modality modality with ⟨rgb, fl, au⟩
  simp [get_extractor_feat, hm, h]

/-- Witness for C6: an unrecognized feature-path model name produces the
unbound-variable failure, not a validation error. -/
theorem claim_C6_witness :
    get_extractor_feat "NotAModel" "rgb" [("verb", 8)] "avgpool" 5 1024
        256 =
      Except.error (PyErr.nameError "feature_network") :=
  claim_C6 "NotAModel" "rgb" [("verb", 8)] "avgpool" 5 1024 256
    (by decide)

/-- C7: both selectors are deterministic in their dimension outputs: two
calls with identical arguments return equal `class_feature_dim` and equal
`domain_feature_dim` (the embedding is a pure function of the
arguments). -/
theorem claim_C7 (model_v modality_v attention : String)
    (d_v : List (String × Int))
    (model_f modality_f frame_aggregation : String)
    (d_f : List (String × Int)) (segments input_size output_size : Int)
    (model_v2 modality_v2 attention2 : String)
    (d_v2 : List (String × Int))
    (model_f2 modality_f2 frame_aggregation2 : String)
    (d_f2 : List (String × Int)) (segments2 input_size2 output_size2 : Int)
    (e1 : model_v = model_v2) (e2 : modality_v = modality_v2)
    (e3 : attention = attention2) (e4 : d_v = d_v2)
    (e5 : model_f = model_f2) (e6 : modality_f = modality_f2)
    (e7 : frame_aggregation = frame_aggregation2) (e8 : d_f = d_f2)
    (e9 : segments = segments2) (e10 : input_size = input_size2)
    (e11 : output_size = output_size2) :
    resultDims (get_extractor_video model_v modality_v attention d_v) =
      resultDims (get_extractor_video model_v2 modality_v2 attention2
        d_v2) ∧
    resultDims (get_extractor_feat model_f modality_f d_f
        frame_aggregation segments input_size output_size) =
      resultDims (get_extractor_feat model_f2 modality_f2 d_f2
        frame_aggregation2 segments2 input_size2 output_size2) := by
  subst e1 e2 e3 e4 e5 e6 e7 e8 e9 e10 e11
  exact ⟨rfl, rfl⟩

/-- Witness for C7 at one concrete repeated call per selector. -/
theorem claim_C7_witness :
    resultDims (get_extractor_video "I3D" "joint" "None" [("verb", 8)]) =
      resultDims (get_extractor_video "I3D" "joint" "None" [("verb", 8)]) ∧
    resultDims (get_extractor_feat "TA3N" "joint" [("verb", 8)] "avgpool"
        5 1024 256) =
      resultDims (get_extractor_feat "TA3N" "joint" [("verb", 8)] "avgpool"
        5 1024 256) :=
  claim_C7 "I3D" "joint" "None" [("verb", 8)]
    "TA3N" "joint" "avgpool" [("verb", 8)] 5 1024 256
    "I3D" "joint" "None" [("verb", 8)]
    "TA3N" "joint" "avgpool" [("verb", 8)] 5 1024 256
    rfl rfl rfl rfl rfl rfl rfl rfl rfl rfl rfl

/-- C8: every dimension pair returned by either selector is integral and
the `int(...)` coercion before return is lossless: the returned integers,
cast back to `ℚ`, are exactly the pre-coercion values of the per-family
dimension arithmetic (including the joint-modality halving by true
division); on the feature path both returned dimensions equal the
configured `output_size`. -/
theorem claim_C8 :
    (∀ (model modality attention : String) (d : List (String × Int))
        (net : VideoNet) (c dd : Int),
        get_extractor_video model modality attention d =
          Except.ok (net, c, dd) →
        ((c : ℚ), (dd : ℚ)) =
            i3d_dims (get_image_modality modality).1
              (get_image_modality modality).2.1 ∨
        ((c : ℚ), (dd : ℚ)) =
            res3d_dims (get_image_modality modality).1
              (get_image_modality modality).2.1) ∧
    (∀ (model modality : String) (d : List (String × Int))
        (frame_aggregation : String)
        (segments input_size output_size : Int)
        (net : Ta3nNet) (c dd : Int),
        get_extractor_feat model modality d frame_aggregation segments
            input_size output_size = Except.ok (net, c, dd) →
        c = output_size ∧ dd = output_size) := by
  constructor
  · intro model modality attention d net c dd h
    cases hl : d.lookup "verb" with
    | none =>
      rw [show get_extractor_video model modality attention d =
            Except.error (PyErr.keyError "verb") by
          simp [get_extractor_video, dictGet, hl]] at h
      simp at h
    | some n =>
      cases hc : checkAttention attention with
      | error e =>
        rw [show get_extractor_video model modality attention d =
              Except.error e by
            simp [get_extractor_video, dictGet, hl, hc]] at h
        simp at h
      | ok att =>
        rw [get_video_eq model modality attention d n hl att hc] at h
        by_cases hm : model ∈ model_list
        · simp only [model_list, List.mem_cons, List.mem_singleton,
            List.not_mem_nil, or_false] at hm
          rcases hm with h1 | h1 | h1 | h1 <;> subst h1
          · rw [videoCore_I3D] at h
            simp only [Except.ok.injEq, Prod.mk.injEq] at h
            obtain ⟨-, h2, h3⟩ := h
            rw [← h2, ← h3]
            exact Or.inl (i3d_dims_cast _ _)
          · rw [videoCore_R3D] at h
            simp only [Except.ok.injEq, Prod.mk.injEq] at h
            obtain ⟨-, h2, h3⟩ := h
            rw [← h2, ← h3]
            exact Or.inr (res3d_dims_cast _ _)
          · rw [videoCore_MC3] at h
            simp only [Except.ok.injEq, Prod.mk.injEq] at h
            obtain ⟨-, h2, h3⟩ := h
            rw [← h2, ← h3]
            exact Or.inr (res3d_dims_cast _ _)
          · rw [videoCore_R2P] at h
            simp only [Except.ok.injEq, Prod.mk.injEq] at h
            obtain ⟨-, h2, h3⟩ := h
            rw [← h2, ← h3]
            exact Or.inr (res3d_dims_cast _ _)
        · simp [videoCore, hm] at h
  · intro model modality d fa seg insz outsz net c dd h
    rcases hm : get_image_modality modality with ⟨rgb, fl, au⟩
    by_cases hT : model = "TA3N"
    · subst hT
      simp [get_extractor_feat, hm] at h
      exact ⟨h.2.1.symm, h.2.2.symm⟩
    · simp [get_extractor_feat, hm, hT] at h

/-- Witness for C8 at model "R3D_18", modality "rgb": the returned pair
(512, 512), cast to `ℚ`, is exactly the pre-coercion dimension pair. -/
theorem claim_C8_witness :
    (((512 : Int) : ℚ), ((512 : Int) : ℚ)) =
        i3d_dims (get_image_modality "rgb").1
          (get_image_modality "rgb").2.1 ∨
    (((512 : Int) : ℚ), ((512 : Int) : ℚ)) =
        res3d_dims (get_image_modality "rgb").1
          (get_image_modality "rgb").2.1 := by
  have h : get_extractor_video "R3D_18" "rgb" "None" [("verb", 8)] =
      Except.ok
        (VideoNet.dict
          [("rgb", some Backbone.r3d), ("flow", none), ("audio", none)],
         512, 512) := by
    rw [get_video_eq "R3D_18" "rgb" "None" [("verb", 8)] 8 rfl false rfl,
        show get_image_modality "rgb" = (true, false, false) from rfl,
        videoCore_R3D]
    have h1 : pyInt (res3d_dims true false).1 = 512 :=
      congrArg Prod.fst (pyInt_res3d_dims true false)
    have h2 : pyInt (res3d_dims true false).2 = 512 :=
      congrArg Prod.snd (pyInt_res3d_dims true false)
    rw [h1, h2]
    rfl
  exact claim_C8.1 "R3D_18" "rgb" "None" [("verb", 8)] _ 512 512 h
